import Mathlib

/-!
# Verification of the in-memory task-list HTTP service

Shallow embedding of the route handlers of `src/index.js` (and of the
near-identical duplicate file `src/unnamed/part_000`) of the repository
`Lakshdeepbawa/origanal`, together with proofs of the specification's
claims about them.

The service keeps a single in-memory array `tasks`; the four routes are

* `GET /tasks`          — return the array (status 200);
* `POST /tasks`         — validate `req.body.title` with the JS truthiness
                          test `!title`, then push `{id: Date.now(), title,
                          completed: false}` (status 201), or answer 400;
* `PUT /tasks/:id`      — `Number(req.params.id)`, find the first task with
                          that id, flip its `completed` field (status 200),
                          or answer 404;
* `DELETE /tasks/:id`   — `Number(req.params.id)`, filter out every task
                          with that id, always answer 200.

Each handler becomes a pure function from its request data and the current
registry to a `Response` and the next registry.  `Date.now()` is modelled
by an explicit `now : Nat` argument supplied at each create.
-/

namespace TaskApi

/-- A task record, as built at `src/index.js:117-126`:
`{ id: Date.now(), title: title, completed: false }`.
`Date.now()` is a nonnegative integer count of milliseconds, so `id : Nat`.
`title` is taken from the request body, which the interface contract
(`{ "title": string }`) types as a string. -/
structure Task where
  id : Nat
  title : String
  completed : Bool
deriving Repr, DecidableEq

/-- The JSON (or text) body of a response, covering exactly the shapes the
handlers produce: a single task, the task array, `{ error: ... }`,
`{ message: ... }`, and the plain-text root greeting. -/
inductive Body where
  | task (t : Task)
  | tasks (ts : List Task)
  | error (msg : String)
  | message (msg : String)
  | text (s : String)
deriving Repr, DecidableEq

/-- An HTTP response: the status code passed to `res.status(...)` and the
body passed to `res.json(...)` / `res.send(...)`. -/
structure Response where
  status : Nat
  body : Body
deriving Repr, DecidableEq

/-! ## The JS `Number(string)` conversion

Both `PUT /tasks/:id` and `DELETE /tasks/:id` run
`const id = Number(req.params.id)` on the raw path segment.  We model the
ECMAScript string-to-number conversion on the decimal, hex, octal and
binary literal grammars, with finite values represented exactly: the
literal's value is kept as a pair `(n, k)` denoting the rational `n / 10^k`
(binary64 rounding is not modelled; it cannot change equality with any
reachable task id, since `Date.now()` stays far below `2^53`, below which
every integer-valued literal converts exactly). -/

/-- The result of `Number(string)`: `NaN`, a signed infinity, or a finite
value `fin n k` denoting `n / 10 ^ k` exactly. -/
inductive JsNum where
  | nan
  | inf (neg : Bool)
  | fin (n : ℤ) (k : ℕ)
deriving Repr, DecidableEq

/-- The characters `Number` strips from both ends of its argument
(ECMAScript `StrWhiteSpaceChar`: WhiteSpace and LineTerminator). -/
def jsStrWhite (c : Char) : Bool :=
  c = ' ' ∨ c = '\t' ∨ c = '\n' ∨ c = '\r' ∨ c = '\x0b' ∨ c = '\x0c' ∨
  c = ' ' ∨ c = '﻿' ∨ c = ' ' ∨
  (' ' ≤ c ∧ c ≤ ' ') ∨ c = ' ' ∨ c = ' ' ∨
  c = ' ' ∨ c = ' ' ∨ c = '　'

/-- Numeric value of a decimal digit character. -/
def digitVal (c : Char) : Nat := c.toNat - 48

/-- Value of a run of decimal digit characters, most significant first. -/
def digitsVal (ds : List Char) : Nat :=
  ds.foldl (fun a c => a * 10 + digitVal c) 0

/-- Value of a digit character in a non-decimal base (hex digits allow
letters). -/
def radixDigitVal (c : Char) : Nat :=
  if c.isDigit then c.toNat - 48
  else if 'a' ≤ c ∧ c ≤ 'f' then c.toNat - 87
  else if 'A' ≤ c ∧ c ≤ 'F' then c.toNat - 55
  else 0

/-- Whether `c` is a digit of base `b` (`b` ∈ {2, 8, 16}). -/
def isRadixDigit (b : Nat) (c : Char) : Bool :=
  radixDigitVal c < b ∧ (c.isDigit ∨ ('a' ≤ c ∧ c ≤ 'f') ∨ ('A' ≤ c ∧ c ≤ 'F'))

/-- Value of a run of base-`b` digits, most significant first. -/
def radixVal (b : Nat) (ds : List Char) : Nat :=
  ds.foldl (fun a c => a * b + radixDigitVal c) 0

/-- The exponent part of a decimal literal: the empty remainder means
exponent `0`; `e`/`E`, an optional sign and at least one digit consume the
rest of the input; anything else invalidates the literal. -/
def jsExponent (cs : List Char) : Option ℤ :=
  match cs with
  | [] => some 0
  | c :: r =>
    if c = 'e' ∨ c = 'E' then
      let (sgn, r') :=
        match r with
        | '+' :: r' => ((1 : ℤ), r')
        | '-' :: r' => ((-1 : ℤ), r')
        | _ => ((1 : ℤ), r)
      let (eds, r'') := r'.span Char.isDigit
      if eds = [] ∨ r'' ≠ [] then none else some (sgn * digitsVal eds)
    else none

/-- `StrUnsignedDecimalLiteral`: `Infinity`, or decimal digits with an
optional fraction and an optional exponent, or a fraction alone with an
optional exponent.  The whole input must be consumed and at least one
digit must occur before any exponent. -/
def jsUnsignedDec (neg : Bool) (cs : List Char) : JsNum :=
  if cs = "Infinity".data then .inf neg
  else
    let (ints, r1) := cs.span Char.isDigit
    let (fracs, r2) :=
      match r1 with
      | '.' :: r => r.span Char.isDigit
      | _ => ([], r1)
    if ints = [] ∧ fracs = [] then .nan
    else
      let num0 : Nat := digitsVal ints * 10 ^ fracs.length + digitsVal fracs
      let sn : ℤ := if neg then -(num0 : ℤ) else (num0 : ℤ)
      match jsExponent r2 with
      | none => .nan
      | some e =>
        if 0 ≤ e then .fin (sn * 10 ^ e.toNat) fracs.length
        else .fin sn (fracs.length + (-e).toNat)

/-- `StrDecimalLiteral`: an optional sign followed by an unsigned decimal
literal. -/
def jsSignedDec (cs : List Char) : JsNum :=
  match cs with
  | '+' :: r => jsUnsignedDec false r
  | '-' :: r => jsUnsignedDec true r
  | _ => jsUnsignedDec false cs

/-- A `0x`/`0o`/`0b` literal body: at least one digit of the base and
nothing else. -/
def jsRadix (b : Nat) (cs : List Char) : JsNum :=
  if cs ≠ [] ∧ cs.all (isRadixDigit b) then .fin (radixVal b cs : ℤ) 0 else .nan

/-- The ECMAScript `Number(string)` conversion used at `src/index.js:154`
and `src/index.js:189`: trim `StrWhiteSpaceChar`s, map the empty remainder
to `0`, recognise non-decimal integer literals, otherwise parse a signed
decimal literal; anything else is `NaN`. -/
def jsNumber (s : String) : JsNum :=
  let cs := ((s.data.dropWhile jsStrWhite).reverse.dropWhile jsStrWhite).reverse
  match cs with
  | [] => .fin 0 0
  | '0' :: c :: r =>
    if c = 'x' ∨ c = 'X' then jsRadix 16 r
    else if c = 'o' ∨ c = 'O' then jsRadix 8 r
    else if c = 'b' ∨ c = 'B' then jsRadix 2 r
    else jsSignedDec cs
  | _ => jsSignedDec cs

/-- The strict equality `task.id === id` of `src/index.js:157` and the
membership test of `src/index.js:192`, between a task id (an integer from
`Date.now()`) and the converted route parameter: `fin n k` equals the
integer `m` exactly when `n / 10^k = m`.  `NaN` and the infinities compare
unequal to every task id. -/
def JsNum.eqNat (v : JsNum) (m : Nat) : Bool :=
  match v with
  | .fin n k => n == (m : ℤ) * 10 ^ k
  | _ => false

/-- Whether a `Number(string)` result is an integer value (denominator
`10^k` divides the numerator). -/
def JsNum.isIntegerValued (v : JsNum) : Bool :=
  match v with
  | .fin n k => n % (10 ^ k : ℤ) == 0
  | _ => false

/-! ## The route handlers of `src/index.js` -/

/-- `GET /` (`src/index.js:62-64`): `res.send("API is running 🚀")`, with
Express's default status 200. -/
def homeRoute : Response := ⟨200, .text "API is running 🚀"⟩

/-- `GET /tasks` (`src/index.js:78-84`): `res.status(200).json(tasks)`.
Reads the registry, never changes it. -/
def getTasks (tasks : List Task) : Response × List Task :=
  (⟨200, .tasks tasks⟩, tasks)

/-- `POST /tasks` (`src/index.js:101-134`).  `req.body.title` is an
optional string (`none` when the field is absent).  The guard `!title` is
the JS truthiness test: it rejects exactly an absent title and the empty
string.  Otherwise the handler pushes
`{ id: Date.now(), title, completed: false }` and answers 201; `now` is
the value `Date.now()` returned for this request. -/
def createTask (now : Nat) (title : Option String) (tasks : List Task) :
    Response × List Task :=
  match title with
  | none => (⟨400, .error "Title is required"⟩, tasks)
  | some t =>
    if t = "" then (⟨400, .error "Title is required"⟩, tasks)
    else
      (⟨201, .task ⟨now, t, false⟩⟩, tasks ++ [⟨now, t, false⟩])

/-- The registry after `task.completed = !task.completed`
(`src/index.js:170`) mutates the object found by
`tasks.find(task => task.id === id)` (`src/index.js:157`): only the first
task matching the converted id is flipped. -/
def toggleFirst (v : JsNum) : List Task → List Task
  | [] => []
  | t :: ts =>
    if v.eqNat t.id then { t with completed := !t.completed } :: ts
    else t :: toggleFirst v ts

/-- `PUT /tasks/:id` (`src/index.js:150-174`): convert the path segment
with `Number`, look for the first matching task; answer 404 if there is
none, otherwise flip its `completed` field in place and answer 200 with
the updated task. -/
def putTask (idStr : String) (tasks : List Task) : Response × List Task :=
  let v := jsNumber idStr
  match tasks.find? (fun t => v.eqNat t.id) with
  | none => (⟨404, .error "Task not found"⟩, tasks)
  | some t =>
    (⟨200, .task { t with completed := !t.completed }⟩, toggleFirst v tasks)

/-- `DELETE /tasks/:id` (`src/index.js:186-198`): convert the path segment
with `Number`, keep every task whose id differs
(`tasks = tasks.filter(task => task.id !== id)`), and always answer 200
with the success message. -/
def deleteTask (idStr : String) (tasks : List Task) : Response × List Task :=
  let v := jsNumber idStr
  (⟨200, .message "Task deleted successfully"⟩,
    tasks.filter (fun t => !v.eqNat t.id))

/-- The fixed listening port of `src/index.js:31`. -/
def PORT : Nat := 5000

/-! ## Mutating requests as a transition system

The registry is the module-level `tasks` array; each request is handled to
completion before the next (single-threaded event loop), so a run of the
server is a sequence of operations folded over the registry. -/

/-- One mutating request: a `POST /tasks` (with the `Date.now()` value it
observes and its optional title), a `PUT /tasks/:id`, or a
`DELETE /tasks/:id` (each with the raw path segment). -/
inductive Op where
  | create (now : Nat) (title : Option String)
  | toggle (idStr : String)
  | del (idStr : String)
deriving Repr, DecidableEq

/-- The registry after one request. -/
def applyOp (tasks : List Task) : Op → List Task
  | .create now title => (createTask now title tasks).2
  | .toggle s => (putTask s tasks).2
  | .del s => (deleteTask s tasks).2

/-- The registry after a sequence of requests. -/
def run (tasks : List Task) (ops : List Op) : List Task :=
  ops.foldl applyOp tasks

/-- The `Date.now()` values observed by the create requests of a trace, in
order. -/
def createTimes : List Op → List Nat
  | [] => []
  | .create now _ :: ops => now :: createTimes ops
  | _ :: ops => createTimes ops

end TaskApi

/-!
## The route handlers of the duplicate file `src/unnamed/part_000`

The second file of the repository declares the same Express application
over its own `tasks` array.  Its handlers are embedded separately below,
translated from that file, so that their equivalence with the handlers of
`src/index.js` is a theorem rather than an assumption.  It listens on port
3000 instead of 5000.
-/

namespace TaskApiDup

open TaskApi (Task Body Response JsNum jsNumber)

/-- `GET /` of `src/unnamed/part_000:10-12`. -/
def homeRoute : Response := ⟨200, .text "API is running 🚀"⟩

/-- `GET /tasks` of `src/unnamed/part_000:15-17`. -/
def getTasks (tasks : List Task) : Response × List Task :=
  (⟨200, .tasks tasks⟩, tasks)

/-- `POST /tasks` of `src/unnamed/part_000:19-34`: same guard `!title`,
same pushed record `{ id: Date.now(), title, completed: false }`. -/
def createTask (now : Nat) (title : Option String) (tasks : List Task) :
    Response × List Task :=
  match title with
  | none => (⟨400, .error "Title is required"⟩, tasks)
  | some t =>
    if t = "" then (⟨400, .error "Title is required"⟩, tasks)
    else
      (⟨201, .task ⟨now, t, false⟩⟩, tasks ++ [⟨now, t, false⟩])

/-- The in-place flip `task.completed = !task.completed` of
`src/unnamed/part_000:44` applied to the first match of
`tasks.find(t => t.id === id)` (`src/unnamed/part_000:38`). -/
def toggleFirst (v : JsNum) : List Task → List Task
  | [] => []
  | t :: ts =>
    if v.eqNat t.id then { t with completed := !t.completed } :: ts
    else t :: toggleFirst v ts

/-- `PUT /tasks/:id` of `src/unnamed/part_000:36-46`. -/
def putTask (idStr : String) (tasks : List Task) : Response × List Task :=
  let v := jsNumber idStr
  match tasks.find? (fun t => v.eqNat t.id) with
  | none => (⟨404, .error "Task not found"⟩, tasks)
  | some t =>
    (⟨200, .task { t with completed := !t.completed }⟩, toggleFirst v tasks)

/-- `DELETE /tasks/:id` of `src/unnamed/part_000:48-53`. -/
def deleteTask (idStr : String) (tasks : List Task) : Response × List Task :=
  let v := jsNumber idStr
  (⟨200, .message "Task deleted successfully"⟩,
    tasks.filter (fun t => !v.eqNat t.id))

/-- The fixed listening port of `src/unnamed/part_000:4`. -/
def PORT : Nat := 3000

end TaskApiDup

/-! ## Helper lemmas -/

namespace TaskApi

theorem eqNat_nan (m : Nat) : JsNum.nan.eqNat m = false := rfl

/-- A converted route parameter equals at most one task id: strict
equality with two integers forces the integers to coincide. -/
theorem eqNat_right_unique (v : JsNum) {a b : Nat}
    (ha : v.eqNat a = true) (hb : v.eqNat b = true) : a = b := by
  cases v with
  | nan => simp [JsNum.eqNat] at ha
  | inf neg => simp [JsNum.eqNat] at ha
  | fin n k =>
    simp only [JsNum.eqNat, beq_iff_eq] at ha hb
    have h : ((a : ℤ)) * 10 ^ k = (b : ℤ) * 10 ^ k := by rw [← ha, ← hb]
    have h10 : (10 : ℤ) ^ k ≠ 0 := pow_ne_zero _ (by norm_num)
    exact_mod_cast mul_right_cancel₀ h10 h

theorem run_nil (ts : List Task) : run ts [] = ts := rfl

theorem run_cons (ts : List Task) (op : Op) (ops : List Op) :
    run ts (op :: ops) = run (applyOp ts op) ops := rfl

theorem createTimes_create (now : Nat) (title : Option String) (ops : List Op) :
    createTimes (.create now title :: ops) = now :: createTimes ops := rfl

theorem createTimes_toggle (s : String) (ops : List Op) :
    createTimes (.toggle s :: ops) = createTimes ops := rfl

theorem createTimes_del (s : String) (ops : List Op) :
    createTimes (.del s :: ops) = createTimes ops := rfl

/-- Flipping `completed` in place never touches an id or a title. -/
theorem toggleFirst_map_pair (v : JsNum) (ts : List Task) :
    (toggleFirst v ts).map (fun t => (t.id, t.title)) =
      ts.map (fun t => (t.id, t.title)) := by
  induction ts with
  | nil => rfl
  | cons t ts ih =>
    by_cases h : v.eqNat t.id = true
    · simp [toggleFirst, h]
    · simp [toggleFirst, h, ih]

/-- Flipping the first match twice restores the registry. -/
theorem toggleFirst_toggleFirst (v : JsNum) (ts : List Task) :
    toggleFirst v (toggleFirst v ts) = ts := by
  induction ts with
  | nil => rfl
  | cons t ts ih =>
    by_cases h : v.eqNat t.id = true
    · simp [toggleFirst, h]
    · simp [toggleFirst, h, ih]

theorem toggleFirst_eq_self (v : JsNum) (ts : List Task)
    (h : ∀ u ∈ ts, v.eqNat u.id = false) : toggleFirst v ts = ts := by
  induction ts with
  | nil => rfl
  | cons t ts ih =>
    have ht := h t (List.mem_cons_self t ts)
    simp [toggleFirst, ht, ih fun u hu => h u (List.mem_cons_of_mem t hu)]

theorem find?_toggleFirst_of_some (v : JsNum) (ts : List Task) (t : Task)
    (h : ts.find? (fun u => v.eqNat u.id) = some t) :
    (toggleFirst v ts).find? (fun u => v.eqNat u.id) =
      some { t with completed := !t.completed } := by
  induction ts with
  | nil => simp at h
  | cons a ts ih =>
    by_cases ha : v.eqNat a.id = true
    · rw [List.find?_cons_of_pos (p := fun u : Task => v.eqNat u.id) _ ha] at h
      injection h with h
      subst h
      simp only [toggleFirst, if_pos ha]
      exact List.find?_cons_of_pos (p := fun u : Task => v.eqNat u.id) _ ha
    · rw [List.find?_cons_of_neg (p := fun u : Task => v.eqNat u.id) _ ha] at h
      simp only [toggleFirst, if_neg ha]
      rw [List.find?_cons_of_neg (p := fun u : Task => v.eqNat u.id) _ ha]
      exact ih h

theorem putTask_eq_of_none (s : String) (ts : List Task)
    (h : ts.find? (fun u => (jsNumber s).eqNat u.id) = none) :
    putTask s ts = (⟨404, .error "Task not found"⟩, ts) := by
  simp [putTask, h]

theorem putTask_eq_of_some (s : String) (ts : List Task) (t : Task)
    (h : ts.find? (fun u => (jsNumber s).eqNat u.id) = some t) :
    putTask s ts =
      (⟨200, .task { t with completed := !t.completed }⟩,
        toggleFirst (jsNumber s) ts) := by
  simp [putTask, h]

/-- A `PUT` request never changes an id or a title. -/
theorem putTask_snd_map_pair (s : String) (ts : List Task) :
    ((putTask s ts).2).map (fun t => (t.id, t.title)) =
      ts.map (fun t => (t.id, t.title)) := by
  cases h : ts.find? (fun u => (jsNumber s).eqNat u.id) with
  | none => rw [putTask_eq_of_none s ts h]
  | some t => rw [putTask_eq_of_some s ts t h]; exact toggleFirst_map_pair _ _

/-- A `PUT` request never changes the list of ids. -/
theorem putTask_snd_map_id (s : String) (ts : List Task) :
    ((putTask s ts).2).map Task.id = ts.map Task.id := by
  have h := congrArg (List.map Prod.fst) (putTask_snd_map_pair s ts)
  simpa [List.map_map, Function.comp] using h

/-- A `PUT` request never changes the list of titles. -/
theorem putTask_snd_map_title (s : String) (ts : List Task) :
    ((putTask s ts).2).map Task.title = ts.map Task.title := by
  have h := congrArg (List.map Prod.snd) (putTask_snd_map_pair s ts)
  simpa [List.map_map, Function.comp] using h

/-- A `DELETE` request keeps a sublist of the registry. -/
theorem deleteTask_snd_sublist (s : String) (ts : List Task) :
    (deleteTask s ts).2.Sublist ts :=
  List.filter_sublist ts

/-- With pairwise distinct ids, at most one task matches the converted
route parameter, so the `filter` of a `DELETE` removes at most one task. -/
theorem length_le_deleteTask_of_nodup (s : String) (ts : List Task)
    (hnd : (ts.map Task.id).Nodup) :
    ts.length ≤ (deleteTask s ts).2.length + 1 := by
  simp only [deleteTask]
  induction ts with
  | nil => simp
  | cons t ts ih =>
    rw [List.map_cons, List.nodup_cons] at hnd
    by_cases h : (jsNumber s).eqNat t.id = true
    · have hrest : ts.filter (fun u => !(jsNumber s).eqNat u.id) = ts := by
        apply List.filter_eq_self.mpr
        intro u hu
        by_contra hc
        simp only [Bool.not_eq_true, Bool.not_eq_false'] at hc
        exact hnd.1 (List.mem_map.mpr ⟨u, hu, (eqNat_right_unique _ hc h).symm ▸ rfl⟩)
      simp [List.filter_cons, h, hrest]
    · have h' : (jsNumber s).eqNat t.id = false := by simpa using h
      have hih := ih hnd.2
      simp only [List.filter_cons, h', Bool.not_false, if_true, List.length_cons]
      omega

/-- A valid create appends the new task; an invalid one is a no-op. -/
theorem applyOp_create_valid (now : Nat) (t : String) (ts : List Task)
    (h : t ≠ "") :
    applyOp ts (.create now (some t)) = ts ++ [⟨now, t, false⟩] := by
  simp [applyOp, createTask, h]

theorem applyOp_create_none (now : Nat) (ts : List Task) :
    applyOp ts (.create now none) = ts := rfl

theorem applyOp_create_empty (now : Nat) (ts : List Task) :
    applyOp ts (.create now (some "")) = ts := rfl

/-- Any task present after one request either was already present with the
same id and title, or is the task appended by a successful create. -/
theorem applyOp_pairs (ts : List Task) (op : Op) :
    ∀ u ∈ applyOp ts op,
      (u.id, u.title) ∈ ts.map (fun t => (t.id, t.title)) ∨
        ∃ now t, op = .create now (some t) ∧ t ≠ "" ∧ u.id = now ∧ u.title = t := by
  intro u hu
  cases op with
  | create now title =>
    match title with
    | none => exact .inl (List.mem_map.mpr ⟨u, hu, rfl⟩)
    | some t =>
      by_cases ht : t = ""
      · subst ht
        exact .inl (List.mem_map.mpr ⟨u, hu, rfl⟩)
      · rw [applyOp_create_valid now t ts ht] at hu
        rcases List.mem_append.mp hu with h | h
        · exact .inl (List.mem_map.mpr ⟨u, h, rfl⟩)
        · rcases List.mem_singleton.mp h with rfl
          exact .inr ⟨now, t, rfl, ht, rfl, rfl⟩
  | toggle s =>
    refine .inl ?_
    rw [← putTask_snd_map_pair s ts]
    exact List.mem_map.mpr ⟨u, hu, rfl⟩
  | del s =>
    exact .inl (List.mem_map.mpr ⟨u, (List.mem_filter.mp hu).1, rfl⟩)

/-- Reachable registries never hold an empty title: the create-time guard
is the only place titles enter. -/
theorem run_titles_ne (ops : List Op) (ts : List Task)
    (h : ∀ t ∈ ts, t.title ≠ "") : ∀ t ∈ run ts ops, t.title ≠ "" := by
  induction ops generalizing ts with
  | nil => simpa [run] using h
  | cons op ops ih =>
    rw [run_cons]
    refine ih (applyOp ts op) ?_
    intro u hu
    rcases applyOp_pairs ts op u hu with hmem | ⟨now, t, hop, hne, hid, hts⟩
    · rcases List.mem_map.mp hmem with ⟨w, hw, hpair⟩
      have : w.title = u.title := congrArg Prod.snd hpair
      exact this ▸ h w hw
    · exact hts ▸ hne

theorem applyOp_toggle (ts : List Task) (s : String) :
    applyOp ts (.toggle s) = (putTask s ts).2 := rfl

theorem applyOp_del (ts : List Task) (s : String) :
    applyOp ts (.del s) = (deleteTask s ts).2 := rfl

theorem deleteTask_snd (s : String) (ts : List Task) :
    (deleteTask s ts).2 = ts.filter (fun t => !(jsNumber s).eqNat t.id) := rfl

/-- Distinct `Date.now()` values at the creates keep the registry ids
pairwise distinct: every id in the registry is an earlier create's
timestamp, hence below every later create's timestamp. -/
theorem run_nodup_ids (ops : List Op) (ts : List Task)
    (hnd : (ts.map Task.id).Nodup)
    (hlt : ∀ t ∈ ts, ∀ n ∈ createTimes ops, t.id < n)
    (hmono : (createTimes ops).Pairwise (· < ·)) :
    ((run ts ops).map Task.id).Nodup := by
  induction ops generalizing ts with
  | nil => simpa [run] using hnd
  | cons op ops ih =>
    rw [run_cons]
    cases op with
    | create now title =>
      rw [createTimes_create] at hlt hmono
      have hmono' := List.pairwise_cons.mp hmono
      have hlt' : ∀ t ∈ ts, ∀ n ∈ createTimes ops, t.id < n :=
        fun t ht n hn => hlt t ht n (List.mem_cons_of_mem _ hn)
      match title with
      | none =>
        rw [applyOp_create_none]
        exact ih ts hnd hlt' hmono'.2
      | some t =>
        by_cases hte : t = ""
        · subst hte
          rw [applyOp_create_empty]
          exact ih ts hnd hlt' hmono'.2
        · rw [applyOp_create_valid now t ts hte]
          apply ih
          · rw [List.map_append, List.nodup_append]
            refine ⟨hnd, List.nodup_singleton _, ?_⟩
            intro a ha hb
            rcases List.mem_map.mp ha with ⟨w, hw, rfl⟩
            have hb' : w.id = now := by simpa using hb
            have := hlt w hw now (List.mem_cons_self _ _)
            omega
          · intro u hu n hn
            rcases List.mem_append.mp hu with h | h
            · exact hlt' u h n hn
            · rcases List.mem_singleton.mp h with rfl
              exact hmono'.1 n hn
          · exact hmono'.2
    | toggle s =>
      rw [createTimes_toggle] at hlt hmono
      rw [applyOp_toggle]
      apply ih
      · rw [putTask_snd_map_id]
        exact hnd
      · intro u hu n hn
        have hm : u.id ∈ ((putTask s ts).2).map Task.id :=
          List.mem_map.mpr ⟨u, hu, rfl⟩
        rw [putTask_snd_map_id] at hm
        rcases List.mem_map.mp hm with ⟨w, hw, hww⟩
        exact hww ▸ hlt w hw n hn
      · exact hmono
    | del s =>
      rw [createTimes_del] at hlt hmono
      rw [applyOp_del]
      apply ih
      · exact List.Nodup.sublist ((deleteTask_snd_sublist s ts).map Task.id) hnd
      · intro u hu n hn
        rw [deleteTask_snd] at hu
        exact hlt u (List.mem_filter.mp hu).1 n hn
      · exact hmono

/-- A run of successful creates appends the corresponding tasks in request
order. -/
theorem run_creates (ps : List (Nat × String)) (ts : List Task)
    (h : ∀ p ∈ ps, p.2 ≠ "") :
    run ts (ps.map fun p => Op.create p.1 (some p.2)) =
      ts ++ ps.map (fun p => ⟨p.1, p.2, false⟩) := by
  induction ps generalizing ts with
  | nil => simp [run]
  | cons p ps ih =>
    rw [List.map_cons, run_cons,
      applyOp_create_valid _ _ _ (h p (List.mem_cons_self p ps)),
      ih _ (fun q hq => h q (List.mem_cons_of_mem p hq))]
    simp

/-- A successful `find?` splits the list at the first match. -/
theorem find?_split (p : Task → Bool) (ts : List Task) (t : Task)
    (h : ts.find? p = some t) :
    ∃ pre post, ts = pre ++ t :: post ∧ ∀ u ∈ pre, p u = false := by
  induction ts with
  | nil => simp at h
  | cons a ts ih =>
    by_cases ha : p a = true
    · rw [List.find?_cons_of_pos _ ha] at h
      injection h with h
      subst h
      exact ⟨[], ts, rfl, by simp⟩
    · rw [List.find?_cons_of_neg _ ha] at h
      rcases ih h with ⟨pre, post, hts, hpre⟩
      refine ⟨a :: pre, post, by rw [hts, List.cons_append], ?_⟩
      intro u hu
      rcases List.mem_cons.mp hu with rfl | hu
      · simpa using ha
      · exact hpre u hu

/-- On a list split at the first match, the in-place flip touches exactly
the matched element. -/
theorem toggleFirst_append_of_not (v : JsNum) (pre post : List Task) (t : Task)
    (hpre : ∀ u ∈ pre, v.eqNat u.id = false) (ht : v.eqNat t.id = true) :
    toggleFirst v (pre ++ t :: post) =
      pre ++ { t with completed := !t.completed } :: post := by
  induction pre with
  | nil => simp [toggleFirst, ht]
  | cons a pre ih =>
    have ha := hpre a (List.mem_cons_self a pre)
    simp [toggleFirst, ha, ih fun u hu => hpre u (List.mem_cons_of_mem a hu)]

/-- The two files build the same in-place flip. -/
theorem dup_toggleFirst_eq (v : JsNum) (ts : List Task) :
    TaskApiDup.toggleFirst v ts = toggleFirst v ts := by
  induction ts with
  | nil => rfl
  | cons t ts ih =>
    by_cases h : v.eqNat t.id = true
    · simp [TaskApiDup.toggleFirst, toggleFirst, h]
    · simp [TaskApiDup.toggleFirst, toggleFirst, h, ih]

/-- The two files answer `PUT /tasks/:id` identically. -/
theorem dup_putTask_eq (s : String) (ts : List Task) :
    TaskApiDup.putTask s ts = putTask s ts := by
  unfold TaskApiDup.putTask putTask
  cases h : ts.find? (fun t => (jsNumber s).eqNat t.id) with
  | none => simp [h]
  | some t => simp [h, dup_toggleFirst_eq]

/-! ## The claims -/

/-- C1: for every non-empty title, `create(title)` allocates the new id
(the `Date.now()` value of the request), appends a task whose `completed`
field is `false`, returns that created task with status 201, and the
registry grows by exactly one task. -/
theorem C1_create_appends (now : Nat) (title : String) (tasks : List Task)
    (h : title ≠ "") :
    createTask now (some title) tasks =
      (⟨201, .task ⟨now, title, false⟩⟩, tasks ++ [⟨now, title, false⟩]) ∧
    ((createTask now (some title) tasks).2).length = tasks.length + 1 := by
  constructor
  · simp [createTask, h]
  · simp [createTask, h]

/-- C1 witness: creating `"Buy milk"` at time 7 on a one-task registry. -/
theorem C1_witness :
    ("Buy milk" : String) ≠ "" ∧
    (createTask 7 (some "Buy milk") [⟨1, "x", true⟩] =
      (⟨201, .task ⟨7, "Buy milk", false⟩⟩,
        [⟨1, "x", true⟩, ⟨7, "Buy milk", false⟩]) ∧
    ((createTask 7 (some "Buy milk") [⟨1, "x", true⟩]).2).length =
      ([⟨1, "x", true⟩] : List Task).length + 1) :=
  ⟨by decide, C1_create_appends 7 "Buy milk" [⟨1, "x", true⟩] (by decide)⟩

/-- C2 counterexample: two creates observing the same `Date.now()` value
(two requests inside one millisecond) produce a reachable registry with a
duplicated id, so ids are not pairwise distinct in every reachable
state. -/
theorem C2_counterexample :
    run [] [.create 5 (some "a"), .create 5 (some "b")] =
      [⟨5, "a", false⟩, ⟨5, "b", false⟩] ∧
    ¬ ((run [] [.create 5 (some "a"), .create 5 (some "b")]).map Task.id).Nodup := by
  constructor
  · rfl
  · decide

/-- C2 (amended): provided the creates of the trace observe strictly
increasing `Date.now()` values (no two creates in the same millisecond),
every reachable registry has pairwise distinct ids; unconditionally, no
request changes the id or title of a surviving task, and no reachable
task's title is the empty string. -/
theorem C2_registry_invariants (ops : List Op)
    (hclk : (createTimes ops).Pairwise (· < ·)) :
    ((run [] ops).map Task.id).Nodup ∧
    (∀ ts op, ∀ u ∈ applyOp ts op,
      (u.id, u.title) ∈ ts.map (fun t => (t.id, t.title)) ∨
        ∃ now t, op = .create now (some t) ∧ t ≠ "" ∧ u.id = now ∧ u.title = t) ∧
    (∀ u ∈ run [] ops, u.title ≠ "") :=
  ⟨run_nodup_ids ops [] (by simp) (by simp) hclk,
   applyOp_pairs,
   run_titles_ne ops [] (by simp)⟩

/-- C2 witness: a trace of two creates at increasing times, a toggle and a
delete. -/
theorem C2_witness :
    ((createTimes [.create 1 (some "a"), .create 2 (some "b"),
        .toggle "1", .del "2"]).Pairwise (· < ·)) ∧
    (((run [] [.create 1 (some "a"), .create 2 (some "b"),
        .toggle "1", .del "2"]).map Task.id).Nodup ∧
    (∀ ts op, ∀ u ∈ applyOp ts op,
      (u.id, u.title) ∈ ts.map (fun t => (t.id, t.title)) ∨
        ∃ now t, op = .create now (some t) ∧ t ≠ "" ∧ u.id = now ∧ u.title = t) ∧
    (∀ u ∈ run [] [.create 1 (some "a"), .create 2 (some "b"),
        .toggle "1", .del "2"], u.title ≠ "")) :=
  ⟨by decide, C2_registry_invariants _ (by decide)⟩

/-- C3 counterexample: in the reachable registry holding two tasks with
the duplicated id 5, `DELETE /tasks/5` removes both tasks, not at most
one — `filter` drops every match. -/
theorem C3_counterexample :
    run [] [.create 5 (some "a"), .create 5 (some "b")] =
      [⟨5, "a", false⟩, ⟨5, "b", false⟩] ∧
    deleteTask "5" [⟨5, "a", false⟩, ⟨5, "b", false⟩] =
      (⟨200, .message "Task deleted successfully"⟩, []) ∧
    ([⟨5, "a", false⟩, ⟨5, "b", false⟩] : List Task).length =
      ((deleteTask "5" [⟨5, "a", false⟩, ⟨5, "b", false⟩]).2).length + 2 := by
  refine ⟨rfl, ?_, by decide⟩
  decide

/-- C3 (amended): `delete(id)` always responds 200 with the success
message and only removes tasks; it removes at most one task whenever the
registry's ids are pairwise distinct (which same-millisecond creates can
violate). -/
theorem C3_delete_response (s : String) (ts : List Task) :
    (deleteTask s ts).1 = ⟨200, .message "Task deleted successfully"⟩ ∧
    (deleteTask s ts).2.Sublist ts ∧
    ((ts.map Task.id).Nodup → ts.length ≤ (deleteTask s ts).2.length + 1) :=
  ⟨rfl, deleteTask_snd_sublist s ts, length_le_deleteTask_of_nodup s ts⟩

/-- C3 witness: deleting id 5 from a two-task registry with distinct
ids. -/
theorem C3_witness :
    (deleteTask "5" [⟨5, "a", false⟩, ⟨6, "b", true⟩]).1 =
      ⟨200, .message "Task deleted successfully"⟩ ∧
    (([⟨5, "a", false⟩, ⟨6, "b", true⟩] : List Task).map Task.id).Nodup ∧
    ([⟨5, "a", false⟩, ⟨6, "b", true⟩] : List Task).length ≤
      ((deleteTask "5" [⟨5, "a", false⟩, ⟨6, "b", true⟩]).2).length + 1 :=
  ⟨(C3_delete_response "5" _).1, by decide,
    (C3_delete_response "5" [⟨5, "a", false⟩, ⟨6, "b", true⟩]).2.2 (by decide)⟩

/-- C4: when the converted `:id` matches a task, toggling twice restores
the registry exactly, and the second response carries the task with its
original `completed` value. -/
theorem C4_double_toggle (s : String) (ts : List Task) (t : Task)
    (h : ts.find? (fun u => (jsNumber s).eqNat u.id) = some t) :
    (putTask s (putTask s ts).2).2 = ts ∧
    (putTask s (putTask s ts).2).1 = ⟨200, .task t⟩ := by
  have h1 := putTask_eq_of_some s ts t h
  have h2 := find?_toggleFirst_of_some (jsNumber s) ts t h
  have h3 := putTask_eq_of_some s (toggleFirst (jsNumber s) ts) _ h2
  constructor
  · rw [h1, h3]
    exact toggleFirst_toggleFirst _ _
  · rw [h1, h3]
    simp

/-- C4 witness: double toggle of id 1 in a two-task registry. -/
theorem C4_witness :
    ([⟨1, "a", false⟩, ⟨2, "b", true⟩] : List Task).find?
      (fun u => (jsNumber "1").eqNat u.id) = some ⟨1, "a", false⟩ ∧
    ((putTask "1" (putTask "1" [⟨1, "a", false⟩, ⟨2, "b", true⟩]).2).2 =
      [⟨1, "a", false⟩, ⟨2, "b", true⟩] ∧
    (putTask "1" (putTask "1" [⟨1, "a", false⟩, ⟨2, "b", true⟩]).2).1 =
      ⟨200, .task ⟨1, "a", false⟩⟩) :=
  ⟨by decide, C4_double_toggle "1" [⟨1, "a", false⟩, ⟨2, "b", true⟩]
    ⟨1, "a", false⟩ (by decide)⟩

/-- C5: a missing or empty title is rejected with 400 and
`{ "error": "Title is required" }`, and the registry is untouched. -/
theorem C5_create_invalid (now : Nat) (title : Option String) (ts : List Task)
    (h : title = none ∨ title = some "") :
    createTask now title ts = (⟨400, .error "Title is required"⟩, ts) := by
  rcases h with rfl | rfl
  · rfl
  · simp [createTask]

/-- C5 witness: a missing title at time 9 on a one-task registry. -/
theorem C5_witness :
    ((none : Option String) = none ∨ (none : Option String) = some "") ∧
    createTask 9 none [⟨1, "x", false⟩] =
      (⟨400, .error "Title is required"⟩, [⟨1, "x", false⟩]) :=
  ⟨Or.inl rfl, C5_create_invalid 9 none [⟨1, "x", false⟩] (Or.inl rfl)⟩

/-- C6: when the converted `:id` matches no task in the registry, the
`PUT` handler answers 404 with `{ "error": "Task not found" }` and leaves
the registry exactly as it was. -/
theorem C6_toggle_missing (s : String) (ts : List Task)
    (h : ∀ u ∈ ts, (jsNumber s).eqNat u.id = false) :
    putTask s ts = (⟨404, .error "Task not found"⟩, ts) := by
  apply putTask_eq_of_none
  apply List.find?_eq_none.mpr
  intro u hu
  simp [h u hu]

/-- C6 witness: toggling the absent id 99 on a one-task registry. -/
theorem C6_witness :
    (∀ u ∈ ([⟨1, "a", false⟩] : List Task), (jsNumber "99").eqNat u.id = false) ∧
    putTask "99" [⟨1, "a", false⟩] =
      (⟨404, .error "Task not found"⟩, [⟨1, "a", false⟩]) :=
  ⟨by decide, C6_toggle_missing "99" [⟨1, "a", false⟩] (by decide)⟩

/-- C7: starting from the empty registry, N successful creates and no
deletes leave exactly the N created tasks, in creation order, and
`GET /tasks` returns them with status 200. -/
theorem C7_creates_in_order (ps : List (Nat × String))
    (h : ∀ p ∈ ps, p.2 ≠ "") :
    run [] (ps.map fun p => Op.create p.1 (some p.2)) =
      ps.map (fun p => ⟨p.1, p.2, false⟩) ∧
    getTasks (run [] (ps.map fun p => Op.create p.1 (some p.2))) =
      (⟨200, .tasks (ps.map (fun p => ⟨p.1, p.2, false⟩))⟩,
        ps.map (fun p => ⟨p.1, p.2, false⟩)) ∧
    (run [] (ps.map fun p => Op.create p.1 (some p.2))).length = ps.length := by
  have h0 := run_creates ps [] h
  rw [List.nil_append] at h0
  refine ⟨h0, ?_, ?_⟩
  · rw [h0]
    rfl
  · rw [h0]
    exact List.length_map _ _

/-- C7 witness: three successful creates. -/
theorem C7_witness :
    (∀ p ∈ ([(1, "a"), (2, "b"), (3, "c")] : List (Nat × String)), p.2 ≠ "") ∧
    (run [] (([(1, "a"), (2, "b"), (3, "c")] : List (Nat × String)).map
        fun p => Op.create p.1 (some p.2)) =
      ([(1, "a"), (2, "b"), (3, "c")] : List (Nat × String)).map
        (fun p => ⟨p.1, p.2, false⟩) ∧
    getTasks (run [] (([(1, "a"), (2, "b"), (3, "c")] : List (Nat × String)).map
        fun p => Op.create p.1 (some p.2))) =
      (⟨200, .tasks (([(1, "a"), (2, "b"), (3, "c")] : List (Nat × String)).map
          (fun p => ⟨p.1, p.2, false⟩))⟩,
        ([(1, "a"), (2, "b"), (3, "c")] : List (Nat × String)).map
          (fun p => ⟨p.1, p.2, false⟩)) ∧
    (run [] (([(1, "a"), (2, "b"), (3, "c")] : List (Nat × String)).map
        fun p => Op.create p.1 (some p.2))).length =
      ([(1, "a"), (2, "b"), (3, "c")] : List (Nat × String)).length) :=
  ⟨by decide, C7_creates_in_order [(1, "a"), (2, "b"), (3, "c")] (by decide)⟩

/-- C8 counterexample: the numeric path segment `"1.5"` is converted by
`Number` to the non-integer value 15/10, not parsed as an integer (an
integer parse such as `parseInt` would give 1 and `PUT /tasks/1.5` would
then match a task with id 1; instead it answers 404). -/
theorem C8_counterexample :
    jsNumber "1.5" = JsNum.fin 15 1 ∧
    (jsNumber "1.5").isIntegerValued = false ∧
    jsNumber "1.5" ≠ JsNum.nan ∧
    putTask "1.5" [⟨1, "x", false⟩] =
      (⟨404, .error "Task not found"⟩, [⟨1, "x", false⟩]) := by
  refine ⟨by decide, by decide, by decide, by decide⟩

/-- C8 (amended): the `:id` path segment is converted with `Number` (whose
value may be non-integral); every segment that converts to `NaN` (every
non-numeric segment) matches no task in any registry state, so `PUT`
answers 404 leaving the registry unchanged and `DELETE` answers 200
leaving the registry unchanged. -/
theorem C8_nonnumeric_segments (s : String) (ts : List Task)
    (h : jsNumber s = JsNum.nan) :
    (∀ u ∈ ts, (jsNumber s).eqNat u.id = false) ∧
    putTask s ts = (⟨404, .error "Task not found"⟩, ts) ∧
    deleteTask s ts = (⟨200, .message "Task deleted successfully"⟩, ts) := by
  refine ⟨fun u hu => by rw [h]; rfl, ?_, ?_⟩
  · apply putTask_eq_of_none
    apply List.find?_eq_none.mpr
    intro u hu
    rw [h]
    simp [JsNum.eqNat]
  · simp [deleteTask, h, eqNat_nan]

/-- C8 witness: the non-numeric segment `"abc"`. -/
theorem C8_witness :
    jsNumber "abc" = JsNum.nan ∧
    ((∀ u ∈ ([⟨1, "x", false⟩] : List Task), (jsNumber "abc").eqNat u.id = false) ∧
    putTask "abc" [⟨1, "x", false⟩] =
      (⟨404, .error "Task not found"⟩, [⟨1, "x", false⟩]) ∧
    deleteTask "abc" [⟨1, "x", false⟩] =
      (⟨200, .message "Task deleted successfully"⟩, [⟨1, "x", false⟩])) :=
  ⟨by decide, C8_nonnumeric_segments "abc" [⟨1, "x", false⟩] (by decide)⟩

/-- C9: for every request and registry state, the handlers of
`src/index.js` and of `src/unnamed/part_000` produce the same response and
the same resulting registry; the two files differ in their listening port
(3000 versus 5000). -/
theorem C9_duplicate_equivalence :
    TaskApiDup.homeRoute = homeRoute ∧
    (∀ ts, TaskApiDup.getTasks ts = getTasks ts) ∧
    (∀ now title ts, TaskApiDup.createTask now title ts = createTask now title ts) ∧
    (∀ s ts, TaskApiDup.putTask s ts = putTask s ts) ∧
    (∀ s ts, TaskApiDup.deleteTask s ts = deleteTask s ts) ∧
    TaskApiDup.PORT ≠ PORT :=
  ⟨rfl, fun _ => rfl, fun _ _ _ => rfl, dup_putTask_eq, fun _ _ => rfl, by decide⟩

/-- C10: a successful toggle flips only the `completed` field of the first
matched task: its id and title, every other task, the task count and the
order are all unchanged. -/
theorem C10_toggle_frame (s : String) (ts : List Task) (t : Task)
    (h : ts.find? (fun u => (jsNumber s).eqNat u.id) = some t) :
    (putTask s ts).1 = ⟨200, .task { t with completed := !t.completed }⟩ ∧
    (∃ pre post,
      ts = pre ++ t :: post ∧
      (putTask s ts).2 = pre ++ { t with completed := !t.completed } :: post ∧
      (∀ u ∈ pre, (jsNumber s).eqNat u.id = false)) ∧
    ((putTask s ts).2).length = ts.length ∧
    ((putTask s ts).2).map (fun u => (u.id, u.title)) =
      ts.map (fun u => (u.id, u.title)) := by
  have hp := putTask_eq_of_some s ts t h
  have ht : (jsNumber s).eqNat t.id = true := by
    simpa using List.find?_some h
  rcases find?_split _ ts t h with ⟨pre, post, hts, hpre⟩
  refine ⟨by rw [hp], ⟨pre, post, hts, ?_, hpre⟩, ?_, putTask_snd_map_pair s ts⟩
  · rw [hp, hts]
    exact toggleFirst_append_of_not (jsNumber s) pre post t hpre ht
  · have := congrArg List.length (putTask_snd_map_pair s ts)
    simpa using this

/-- C10 witness: toggling id 2 in a three-task registry. -/
theorem C10_witness :
    ([⟨1, "a", false⟩, ⟨2, "b", false⟩, ⟨3, "c", true⟩] : List Task).find?
      (fun u => (jsNumber "2").eqNat u.id) = some ⟨2, "b", false⟩ ∧
    ((putTask "2" [⟨1, "a", false⟩, ⟨2, "b", false⟩, ⟨3, "c", true⟩]).1 =
      ⟨200, .task ⟨2, "b", true⟩⟩ ∧
    (∃ pre post,
      ([⟨1, "a", false⟩, ⟨2, "b", false⟩, ⟨3, "c", true⟩] : List Task) =
        pre ++ ⟨2, "b", false⟩ :: post ∧
      (putTask "2" [⟨1, "a", false⟩, ⟨2, "b", false⟩, ⟨3, "c", true⟩]).2 =
        pre ++ ⟨2, "b", true⟩ :: post ∧
      (∀ u ∈ pre, (jsNumber "2").eqNat u.id = false)) ∧
    ((putTask "2" [⟨1, "a", false⟩, ⟨2, "b", false⟩, ⟨3, "c", true⟩]).2).length =
      ([⟨1, "a", false⟩, ⟨2, "b", false⟩, ⟨3, "c", true⟩] : List Task).length ∧
    ((putTask "2" [⟨1, "a", false⟩, ⟨2, "b", false⟩, ⟨3, "c", true⟩]).2).map
        (fun u => (u.id, u.title)) =
      ([⟨1, "a", false⟩, ⟨2, "b", false⟩, ⟨3, "c", true⟩] : List Task).map
        (fun u => (u.id, u.title))) :=
  ⟨by decide, C10_toggle_frame "2" [⟨1, "a", false⟩, ⟨2, "b", false⟩, ⟨3, "c", true⟩]
    ⟨2, "b", false⟩ (by decide)⟩

end TaskApi



